import Mathlib

/-!
Verification of the conformance-checker behaviour of the
`github-copilot-instructions` validator scripts.

The Python sources under `.github/instructions/` are shallowly embedded
below: string scanning is modelled over `String`/`List Char`, the mutable
`errors`/`warnings`/`success_count` accumulators become an explicit
`Tally`, uncaught Python exceptions become `Except String`, and the
external libraries `json` (loads) and `yaml` (safe_load) are modelled by
executable Lean functions restricted to the document shapes the scripts
feed them.  Console printing and report persistence are not modelled:
only the data the scripts compute.
-/

namespace Copilot

/-! ## Python string primitives -/

/-- Index of the first occurrence of `needle` inside the list, if any. -/
def findSubAux (needle : List Char) : List Char → Nat → Option Nat
  | [], i => if needle = [] then some i else none
  | c :: cs, i =>
    if needle.isPrefixOf (c :: cs) then some i else findSubAux needle cs (i + 1)

/-- Python `s.find(sub, start)`: absolute index of the first occurrence of
`sub` at or after `start`, or `-1`. -/
def pyFindFrom (s sub : String) (start : Nat) : Int :=
  match findSubAux sub.data (s.data.drop start) 0 with
  | some i => ((start + i : Nat) : Int)
  | none => -1

/-- Python `sub in s` (substring containment). -/
def pySubstr (sub s : String) : Bool :=
  (findSubAux sub.data s.data 0).isSome

/-- Python slice `s[a:b]` for `a ≤ b`. -/
def pySlice (s : String) (a b : Nat) : String :=
  String.mk ((s.data.drop a).take (b - a))

/-- Python regex `\s` / `str.strip` character class. -/
def isPyWs (c : Char) : Bool :=
  c = ' ' || c = '\t' || c = '\n' || c = '\r' || c = '\x0c' || c = '\x0b'

/-- Python `s.strip()` (whitespace). -/
def pyStrip (s : String) : String :=
  String.mk (((s.data.dropWhile isPyWs).reverse.dropWhile isPyWs).reverse)

/-- Python `s.rstrip()` (whitespace). -/
def pyRstrip (s : String) : String :=
  String.mk ((s.data.reverse.dropWhile isPyWs).reverse)

/-- Python `s.startswith(pre)`. -/
def pyStartsWith (s pre : String) : Bool :=
  pre.data.isPrefixOf s.data

/-- Python `s.endswith(suf)`. -/
def pyEndsWith (s suf : String) : Bool :=
  suf.data.isSuffixOf s.data

/-- Split a character list at each newline, keeping empty pieces. -/
def charLines : List Char → List (List Char)
  | [] => [[]]
  | '\n' :: rest => [] :: charLines rest
  | c :: rest =>
    match charLines rest with
    | l :: ls => (c :: l) :: ls
    | [] => [[c]]

/-- Python `s.split(chr(10))`: split on newline, keeping empty pieces. -/
def pyLines (s : String) : List String := (charLines s.data).map String.mk

/-- Join strings with a separator (Python `sep.join`). -/
def joinWith (sep : String) : List String → String
  | [] => ""
  | [x] => x
  | x :: xs => x ++ sep ++ joinWith sep xs

/-! ## Model of `json.loads`

The scripts hand `json.loads` (from the Python standard library) the
cleaned text of `.vscode/settings.json`.  The model below is an
executable recursive-descent JSON parser covering objects, arrays,
strings with the standard single-character escapes, integers, booleans
and `null` — the shapes appearing in the validated settings documents.
A parse failure (`none`) models `json.JSONDecodeError`. -/

inductive JValue where
  | jnull
  | jbool (b : Bool)
  | jnum (n : Int)
  | jstr (s : String)
  | jarr (xs : List JValue)
  | jobj (fields : List (String × JValue))
  deriving Repr

/-- Whitespace skipping inside a JSON document. -/
def skipWs : List Char → List Char
  | c :: cs =>
    if c = ' ' || c = '\n' || c = '\t' || c = '\r' then skipWs cs else c :: cs
  | [] => []

/-- Single-character JSON string escapes. -/
def escChar : Char → Option Char
  | '\"' => some '\"'
  | '\\' => some '\\'
  | '/' => some '/'
  | 'n' => some '\n'
  | 't' => some '\t'
  | 'r' => some '\r'
  | _ => none

/-- Parse the body of a JSON string after the opening quote; returns the
string characters and the input after the closing quote. -/
def parseStringBody : List Char → Option (List Char × List Char)
  | '\"' :: rest => some ([], rest)
  | '\\' :: e :: rest => do
    let c ← escChar e
    let (s, r) ← parseStringBody rest
    some (c :: s, r)
  | c :: rest => (parseStringBody rest).map (fun p => (c :: p.1, p.2))
  | [] => none

/-- Consume a run of decimal digits, accumulating their value. -/
def digitsAux : List Char → Nat → (Nat × List Char)
  | c :: cs, acc =>
    if c.isDigit then digitsAux cs (acc * 10 + (c.toNat - 48)) else (acc, c :: cs)
  | [], acc => (acc, [])

mutual

/-- Parse one JSON value (fuelled; fuel bounds the recursion depth). -/
def parseVal : Nat → List Char → Option (JValue × List Char)
  | 0, _ => none
  | fuel + 1, cs =>
    match skipWs cs with
    | '{' :: rest => parseObjFields fuel rest
    | '[' :: rest => parseArrItems fuel rest
    | '\"' :: rest =>
      (parseStringBody rest).map (fun p => (.jstr (String.mk p.1), p.2))
    | 't' :: 'r' :: 'u' :: 'e' :: rest => some (.jbool true, rest)
    | 'f' :: 'a' :: 'l' :: 's' :: 'e' :: rest => some (.jbool false, rest)
    | 'n' :: 'u' :: 'l' :: 'l' :: rest => some (.jnull, rest)
    | '-' :: c :: rest =>
      if c.isDigit then
        let p := digitsAux (c :: rest) 0
        some (.jnum (-(p.1 : Int)), p.2)
      else none
    | c :: rest =>
      if c.isDigit then
        let p := digitsAux (c :: rest) 0
        some (.jnum (p.1 : Int), p.2)
      else none
    | [] => none

/-- Parse the members of a JSON object after the opening brace. -/
def parseObjFields : Nat → List Char → Option (JValue × List Char)
  | 0, _ => none
  | fuel + 1, cs =>
    match skipWs cs with
    | '}' :: rest => some (.jobj [], rest)
    | _ => parseObjLoop fuel cs []

/-- Parse a nonempty comma-separated member list of a JSON object.
A comma must be followed by another member, so a trailing comma before
the closing brace is a parse error, as in `json.loads`. -/
def parseObjLoop : Nat → List Char → List (String × JValue) →
    Option (JValue × List Char)
  | 0, _, _ => none
  | fuel + 1, cs, acc =>
    match skipWs cs with
    | '\"' :: rest => do
      let (k, r1) ← parseStringBody rest
      match skipWs r1 with
      | ':' :: r2 => do
        let (v, r3) ← parseVal fuel r2
        match skipWs r3 with
        | ',' :: r4 => parseObjLoop fuel r4 (acc ++ [(String.mk k, v)])
        | '}' :: r4 => some (.jobj (acc ++ [(String.mk k, v)]), r4)
        | _ => none
      | _ => none
    | _ => none

/-- Parse the items of a JSON array after the opening bracket. -/
def parseArrItems : Nat → List Char → Option (JValue × List Char)
  | 0, _ => none
  | fuel + 1, cs =>
    match skipWs cs with
    | ']' :: rest => some (.jarr [], rest)
    | _ => parseArrLoop fuel cs []

/-- Parse a nonempty comma-separated item list of a JSON array. -/
def parseArrLoop : Nat → List Char → List JValue → Option (JValue × List Char)
  | 0, _, _ => none
  | fuel + 1, cs, acc =>
    match parseVal fuel cs with
    | some (v, r) =>
      match skipWs r with
      | ',' :: r2 => parseArrLoop fuel r2 (acc ++ [v])
      | ']' :: r2 => some (.jarr (acc ++ [v]), r2)
      | _ => none
    | none => none

end

/-- Model of `json.loads`: parse a complete document, requiring only
whitespace after the top-level value. -/
def jsonParse (s : String) : Option JValue :=
  match parseVal (s.data.length + 8) s.data with
  | some (v, rest) =>
    match skipWs rest with
    | [] => some v
    | _ => none
  | none => none

/-! ## The two JSON-with-comments cleaners

`comprehensive_validator._validate_vscode_settings` cleans with
`re.sub(r"//.*$", "", content, flags=re.MULTILINE)` only.
`copilot_best_practices_validator._validate_vscode_configuration` removes
`//` line comments outside string literals, drops blank lines, removes
`/* ... */` block comments (anywhere, `re.DOTALL`, non-greedy) and
removes trailing commas before `}` or `]`. -/

/-- One line of `re.sub(r"//.*$", "", line)`: drop everything from the
first `//` (string literals are not respected by this regex). -/
def stripLineCommentAnywhere (line : String) : String :=
  match findSubAux ['/', '/'] line.data 0 with
  | some i => String.mk (line.data.take i)
  | none => line

/-- `comprehensive_validator.py` line 87: remove `//.*$` on every line. -/
def comprehensiveClean (content : String) : String :=
  joinWith "\n" ((pyLines content).map stripLineCommentAnywhere)

/-- The character scan of `copilot_best_practices_validator` lines 95-108:
position of the first `//` that is not inside a string literal, tracking
backslash escapes. -/
def bpCommentPos : List Char → Nat → Bool → Bool → Option Nat
  | [], _, _, _ => none
  | c :: cs, i, escaped, inString =>
    if escaped then bpCommentPos cs (i + 1) false inString
    else if c = '\\' then bpCommentPos cs (i + 1) true inString
    else if c = '\"' then bpCommentPos cs (i + 1) false (!inString)
    else if c = '/' && !inString then
      match cs with
      | '/' :: _ => some i
      | _ => bpCommentPos cs (i + 1) false inString
    else bpCommentPos cs (i + 1) false inString

/-- Per-line cleaning of `copilot_best_practices_validator` lines 89-113:
if the line contains `//`, cut at the first occurrence outside a string
and right-strip; afterwards the line is kept only when non-blank. -/
def bpCleanLine (line : String) : String :=
  if pySubstr "//" line then
    match bpCommentPos line.data 0 false false with
    | some i => pyRstrip (String.mk (line.data.take i))
    | none => line
  else line

/-- Search for a closing `*/`, returning the input after it. -/
def findBlockClose : List Char → Option (List Char)
  | '*' :: '/' :: rest => some rest
  | _ :: rest => findBlockClose rest
  | [] => none

/-- `re.sub(r"/\*.*?\*/", "", s, flags=re.DOTALL)` (line 119): remove each
block comment up to the nearest `*/`; with no closing `*/` after an
opener, the remainder has no match and is kept unchanged. -/
def stripBlockComments (fuel : Nat) (cs : List Char) : List Char :=
  match fuel, cs with
  | 0, rest => rest
  | fuel + 1, '/' :: '*' :: rest =>
    match findBlockClose rest with
    | some r => stripBlockComments fuel r
    | none => '/' :: '*' :: rest
  | fuel + 1, c :: rest => c :: stripBlockComments fuel rest
  | _ + 1, [] => []

/-- `re.sub(r",(\s*[}\]])", r"\1", s)` (line 122): a comma followed by
whitespace and a closing bracket is dropped, keeping the whitespace and
bracket; scanning resumes after the bracket. -/
def stripTrailingCommas (fuel : Nat) (cs : List Char) : List Char :=
  match fuel, cs with
  | 0, rest => rest
  | fuel + 1, ',' :: rest =>
    let ws := rest.takeWhile isPyWs
    match rest.dropWhile isPyWs with
    | '}' :: r => ws ++ '}' :: stripTrailingCommas fuel r
    | ']' :: r => ws ++ ']' :: stripTrailingCommas fuel r
    | _ => ',' :: stripTrailingCommas fuel rest
  | fuel + 1, c :: rest => c :: stripTrailingCommas fuel rest
  | _ + 1, [] => []

/-- Full cleaning pipeline of
`copilot_best_practices_validator._validate_vscode_configuration`
lines 89-122: per-line `//` removal outside strings, blank-line removal,
block-comment removal, trailing-comma removal. -/
def bpClean (content : String) : String :=
  let cleanedLines :=
    ((pyLines content).map bpCleanLine).filter (fun l => pyStrip l ≠ "")
  let joined := joinWith "\n" cleanedLines
  let noBlock := stripBlockComments joined.data.length joined.data
  String.mk (stripTrailingCommas noBlock.length noBlock)

/-! ## Model of `yaml.safe_load`

The validators call `yaml.safe_load` (external library) on the
frontmatter region of Markdown files and then test `field in metadata`.
The model is restricted to the flat one-line-per-key mappings these
files use: every non-blank line `key: value` yields a mapping; a value
opening a `[` flow sequence with no closing `]` on the line is a scanner
error (`yaml.YAMLError`); text without any `:` loads as a plain string
scalar (Python then checks fields by substring, since `in` on `str` is
substring containment); an all-blank region loads as `None` (Python then
raises `TypeError` on `field in metadata`, which no validator catches). -/

inductive YamlVal where
  | ydict (m : List (String × String))
  | yscalar (s : String)
  | ynone
  | yerror
  deriving Repr, DecidableEq

/-- Whether a line contains a `:` separator. -/
def yamlHasColon (l : String) : Bool := pySubstr ":" l

/-- Split a `key: value` line at its first colon, stripping both parts. -/
def yamlPair (l : String) : String × String :=
  let i := (pyFindFrom l ":" 0).toNat
  (pyStrip (pySlice l 0 i), pyStrip (pySlice l (i + 1) l.data.length))

/-- A value that opens a `[` flow sequence and never closes it. -/
def yamlBadFlow (l : String) : Bool :=
  let v := (yamlPair l).2
  pyStartsWith v "[" && !pySubstr "]" v

/-- Model of the external `yaml.safe_load` on the flat frontmatter
subset described above. -/
def yamlSafeLoadModel (s : String) : YamlVal :=
  let ls := (pyLines s).filter (fun l => pyStrip l ≠ "")
  if ls.isEmpty then .ynone
  else if ls.all yamlHasColon then
    if ls.any yamlBadFlow then .yerror else .ydict (ls.map yamlPair)
  else if ls.all (fun l => !yamlHasColon l) then
    .yscalar (joinWith " " (ls.map pyStrip))
  else .yerror

/-- Python `field in metadata` for a loaded mapping (key membership) or
a string scalar (substring containment). -/
def yamlMem (field : String) : YamlVal → Bool
  | .ydict m => (m.map Prod.fst).contains field
  | .yscalar s => pySubstr field s
  | _ => false

/-! ## The validator state

Each validator object mutates `self.errors`, `self.warnings` and
`self.success_count`; `Tally` is that state.  The recorded message
strings keep the Spanish wording of the source with emoji markers and
apostrophes elided (the claims depend on which list a message lands in
and on messages being distinct, not on their exact glyphs). -/

structure Tally where
  success_count : Nat
  errors : List String
  warnings : List String
  deriving Repr, DecidableEq

def Tally.addSuccess (t : Tally) : Tally :=
  { t with success_count := t.success_count + 1 }

def Tally.addError (t : Tally) (m : String) : Tally :=
  { t with errors := t.errors ++ [m] }

def Tally.addWarning (t : Tally) (m : String) : Tally :=
  { t with warnings := t.warnings ++ [m] }

/-- Total number of findings recorded in a tally. -/
def tallyTotal (t : Tally) : Nat :=
  t.success_count + t.errors.length + t.warnings.length

/-! ## File-tree snapshot

A point-in-time read-only view of the project tree: existing files with
their content (or a read error, modelling e.g. `PermissionError` from
`read_text`) and the set of existing directories. -/

inductive FileEntry where
  | readable (content : String)
  | unreadable (msg : String)
  deriving Repr, DecidableEq

structure Snapshot where
  files : List (String × FileEntry)
  dirs : List String
  deriving Repr, DecidableEq

/-- Look up a path in the snapshot (`Path.exists` is `isSome`). -/
def Snapshot.file (fs : Snapshot) (p : String) : Option FileEntry :=
  (fs.files.find? (fun e => e.1 == p)).map (fun e => e.2)

def Snapshot.dirExists (fs : Snapshot) (d : String) : Bool :=
  fs.dirs.contains d

/-! ## `comprehensive_validator.py` -/

def required_sections : List String :=
  ["About Me", "About This Project", "Tech Stack", "General Principles",
   "Mandatory Code Standards"]

def expected_roles : List String :=
  ["data-scientist.md", "data-engineer.md", "mlops-engineer.md",
   "frontend-developer.md", "cloud-architect.md", "qa-engineer.md",
   "business-analyst.md", "project-manager.md", "visualization-engineer.md"]

def key_tasks : List String :=
  ["code-generation.md", "test-generation.md", "code-review.md",
   "notebook-eda.md", "data-validation.md"]

def required_role_fields : List String := ["applyTo", "description", "priority"]

def recommended_prompt_fields : List String :=
  ["title", "description", "mode", "tools", "role"]

def expected_dirs : List String :=
  [".github/instructions/roles", ".github/instructions/tasks",
   ".github/instructions/prompts"]

def rolesDirPath : String := ".github/instructions/roles"
def tasksDirPath : String := ".github/instructions/tasks"
def promptsDirPath : String := ".github/instructions/prompts"

def rolePath (name : String) : String := rolesDirPath ++ "/" ++ name
def taskPath (name : String) : String := tasksDirPath ++ "/" ++ name

/-- `_validate_main_instruction_file` (lines 40-73): missing file is one
error; otherwise each required section found is a success and each
missing one an error, and a reference to the roles directory is a
success, its absence a warning.  An unreadable file raises out of the
method. -/
def validateMainInstructionFile (fs : Snapshot) (t : Tally) :
    Except String Tally :=
  match fs.file ".github/copilot-instructions.md" with
  | none =>
    .ok (t.addError "Archivo principal .github/copilot-instructions.md no encontrado")
  | some (.unreadable m) => .error m
  | some (.readable content) =>
    let t := required_sections.foldl
      (fun t sec =>
        if pySubstr sec content then t.addSuccess
        else t.addError ("Seccion requerida faltante en archivo principal: " ++ sec))
      t
    if pySubstr ".github/instructions/roles/" content then .ok t.addSuccess
    else .ok (t.addWarning "No se encontraron referencias a archivos de roles")

/-- Python truthiness of `settings.get(key)` for the values appearing in
a settings document. -/
def jTruthyOpt : Option JValue → Bool
  | none => false
  | some .jnull => false
  | some (.jbool b) => b
  | some (.jnum n) => n != 0
  | some (.jstr s) => s ≠ ""
  | some (.jarr xs) => !xs.isEmpty
  | some (.jobj m) => !m.isEmpty

/-- Dictionary lookup on a parsed JSON object. -/
def jGet (m : List (String × JValue)) (k : String) : Option JValue :=
  (m.find? (fun e => e.1 == k)).map (fun e => e.2)

/-- `_validate_vscode_settings` (lines 75-102): clean only `//` line
comments (everywhere, `re.MULTILINE`), then `json.loads`; a decode error
is one error finding; otherwise the two settings checks run.  A parse
result that is not a dictionary makes `settings.get` raise
(`AttributeError`), uncaught. -/
def validateVscodeSettings (fs : Snapshot) (t : Tally) : Except String Tally :=
  match fs.file ".vscode/settings.json" with
  | none => .ok (t.addError "Archivo .vscode/settings.json no encontrado")
  | some (.unreadable m) => .error m
  | some (.readable content) =>
    match jsonParse (comprehensiveClean content) with
    | none => .ok (t.addError "Error en formato JSON de settings.json")
    | some (.jobj settings) =>
      let t :=
        if jTruthyOpt (jGet settings "github.copilot.chat.codeGeneration.useInstructionFiles")
        then t.addSuccess
        else t.addError "useInstructionFiles no habilitado en VS Code"
      if (jGet settings "chat.promptFiles").isSome &&
          jTruthyOpt (jGet settings "chat.promptFiles") then .ok t.addSuccess
      else .ok (t.addWarning "Prompt files no habilitados en VS Code")
    | some _ => .error "AttributeError: settings object has no attribute get"

/-- `_validate_directory_structure` (lines 104-117). -/
def validateDirectoryStructure (fs : Snapshot) (t : Tally) : Tally :=
  expected_dirs.foldl
    (fun t d =>
      if fs.dirExists d then t.addSuccess
      else t.addError ("Directorio faltante: " ++ d))
    t

/-- `_validate_role_file_content` (lines 146-167): only files opening
with a frontmatter block are inspected; required fields missing from the
loaded metadata are warnings; a `yaml.YAMLError` is one error; metadata
loading to `None` raises `TypeError`, uncaught. -/
def validateRoleFileContent (content name : String) (t : Tally) :
    Except String Tally :=
  if pyStartsWith content "---" then
    let yamlEnd := pyFindFrom content "---" 3
    if yamlEnd > 0 then
      match yamlSafeLoadModel (pySlice content 3 yamlEnd.toNat) with
      | .yerror => .ok (t.addError ("Error en YAML frontmatter de " ++ name))
      | .ynone => .error "TypeError: argument of type NoneType is not iterable"
      | metadata =>
        .ok (required_role_fields.foldl
          (fun t field =>
            if yamlMem field metadata then t
            else t.addWarning
              ("Campo " ++ field ++ " faltante en metadata de " ++ name))
          t)
    else .ok t
  else .ok t

/-- `_validate_role_files` (lines 119-144): nothing happens when the
roles directory is missing; each expected role file present is content-
validated and counted a success, each absent one is a warning.  Reading
an unreadable file raises out of the loop. -/
def validateRoleList (fs : Snapshot) : List String → Tally →
    Except String Tally
  | [], t => .ok t
  | name :: rest, t =>
    match fs.file (rolePath name) with
    | none =>
      validateRoleList fs rest (t.addWarning ("Archivo de rol faltante: " ++ name))
    | some (.unreadable m) => .error m
    | some (.readable content) =>
      (validateRoleFileContent content name t).bind
        (fun t2 => validateRoleList fs rest t2.addSuccess)

def validateRoleFiles (fs : Snapshot) (t : Tally) : Except String Tally :=
  if fs.dirExists rolesDirPath then validateRoleList fs expected_roles t
  else .ok t

/-- `_validate_task_files` (lines 169-190): existence only. -/
def validateTaskFiles (fs : Snapshot) (t : Tally) : Tally :=
  if fs.dirExists tasksDirPath then
    key_tasks.foldl
      (fun t name =>
        if (fs.file (taskPath name)).isSome then t.addSuccess
        else t.addWarning ("Archivo de tarea clave faltante: " ++ name))
      t
  else t

/-- `_validate_prompt_file_content` (lines 205-233): same frontmatter
handling as role files, but each recommended field present is a success
and each absent one a warning. -/
def validatePromptFileContent (content name : String) (t : Tally) :
    Except String Tally :=
  if pyStartsWith content "---" then
    let yamlEnd := pyFindFrom content "---" 3
    if yamlEnd > 0 then
      match yamlSafeLoadModel (pySlice content 3 yamlEnd.toNat) with
      | .yerror => .ok (t.addError ("Error en YAML frontmatter de " ++ name))
      | .ynone => .error "TypeError: argument of type NoneType is not iterable"
      | metadata =>
        .ok (recommended_prompt_fields.foldl
          (fun t field =>
            if yamlMem field metadata then t.addSuccess
            else t.addWarning
              ("Campo recomendado " ++ field ++ " faltante en " ++ name))
          t)
    else .ok t
  else .ok t

/-- The `*.prompt.md` glob inside the prompts directory, in snapshot
order (the directory listing order of the real run). -/
def promptGlob (fs : Snapshot) : List (String × FileEntry) :=
  fs.files.filter
    (fun e =>
      pyStartsWith e.1 (promptsDirPath ++ "/") && pyEndsWith e.1 ".prompt.md" &&
      !pySubstr "/" (pySlice e.1 (promptsDirPath ++ "/").data.length e.1.data.length))

/-- `_validate_prompt_files` (lines 192-203). -/
def validatePromptFiles (fs : Snapshot) (t : Tally) : Except String Tally :=
  if fs.dirExists promptsDirPath then
    (promptGlob fs).foldlM
      (fun t e =>
        match e.2 with
        | .unreadable m => .error m
        | .readable content => validatePromptFileContent content e.1 t)
      t
  else .ok t

/-- `validate_all` (lines 25-38): the seven validations in sequence
(`_validate_metadata_consistency` is `pass`); any uncaught exception
propagates. -/
def validateAll (fs : Snapshot) : Except String Tally := do
  let t ← validateMainInstructionFile fs ⟨0, [], []⟩
  let t ← validateVscodeSettings fs t
  let t := validateDirectoryStructure fs t
  let t ← validateRoleFiles fs t
  let t := validateTaskFiles fs t
  let t ← validatePromptFiles fs t
  pure t

/-! ## Report builders -/

/-- The shared success-rate formula (`comprehensive_validator.py` lines
243-246, and identically in `workflow_validator.py` lines 298-301 and
`practical_validator.py` lines 428-431):
`success_count / total_checks * 100` when any check ran, else `0`. -/
def successRateRaw (success_count errors warnings : Nat) : ℚ :=
  let total_checks := success_count + errors + warnings
  if total_checks > 0 then (success_count : ℚ) / (total_checks : ℚ) * 100 else 0

/-- Model of Python `round(x, 1)` (round half to even on exact decimal
inputs, which is what the reports feed it). -/
def pyRound1 (q : ℚ) : ℚ :=
  let r := q * 10
  let n := ⌊r⌋
  let f := r - (n : ℚ)
  let m : ℤ :=
    if f < 1 / 2 then n
    else if f > 1 / 2 then n + 1
    else if n % 2 = 0 then n else n + 1
  (m : ℚ) / 10

/-- The JSON report of `_generate_report` (`comprehensive_validator.py`
lines 241-257). -/
structure CompReport where
  status : String
  success_rate : ℚ
  total_checks : Nat
  successes : Nat
  errors : Nat
  warnings : Nat
  error_details : List String
  warning_details : List String
  deriving Repr, DecidableEq

/-- `_generate_report`: `status` is `PASS` exactly when the error list is
empty; counts and details copy the tally. -/
def generateReport (t : Tally) : CompReport :=
  { status := if t.errors.length = 0 then "PASS" else "FAIL"
    success_rate :=
      pyRound1 (successRateRaw t.success_count t.errors.length t.warnings.length)
    total_checks := t.success_count + t.errors.length + t.warnings.length
    successes := t.success_count
    errors := t.errors.length
    warnings := t.warnings.length
    error_details := t.errors
    warning_details := t.warnings }

/-- `_generate_workflow_report` (`workflow_validator.py` lines 296-323);
the `scenario_statistics` block, which has no bearing on status or
counts, is omitted. -/
structure WorkflowReport where
  workflow_status : String
  success_rate : ℚ
  total_checks : Nat
  successes : Nat
  errors : Nat
  warnings : Nat
  error_details : List String
  warning_details : List String
  deriving Repr, DecidableEq

def generateWorkflowReport (t : Tally) : WorkflowReport :=
  { workflow_status := if t.errors.length = 0 then "PASS" else "FAIL"
    success_rate :=
      pyRound1 (successRateRaw t.success_count t.errors.length t.warnings.length)
    total_checks := t.success_count + t.errors.length + t.warnings.length
    successes := t.success_count
    errors := t.errors.length
    warnings := t.warnings.length
    error_details := t.errors
    warning_details := t.warnings }

/-- `_generate_practical_report` (`practical_validator.py` lines
426-450); the `practical_statistics` block is omitted likewise. -/
structure PracticalReport where
  practical_status : String
  success_rate : ℚ
  total_checks : Nat
  successes : Nat
  errors : Nat
  warnings : Nat
  error_details : List String
  warning_details : List String
  deriving Repr, DecidableEq

def generatePracticalReport (t : Tally) : PracticalReport :=
  { practical_status := if t.errors.length = 0 then "PASS" else "FAIL"
    success_rate :=
      pyRound1 (successRateRaw t.success_count t.errors.length t.warnings.length)
    total_checks := t.success_count + t.errors.length + t.warnings.length
    successes := t.success_count
    errors := t.errors.length
    warnings := t.warnings.length
    error_details := t.errors
    warning_details := t.warnings }

/-- `main` of `comprehensive_validator.py` (lines 289-311): run
`validate_all`, save the report, exit `0` on `PASS` and `1` otherwise;
any exception is caught at this top level only, printing the error and
exiting `1` with no report written.  The result pairs the report that
gets written (if any) with the exit code. -/
def comprehensiveMain (fs : Snapshot) : Option CompReport × Nat :=
  match validateAll fs with
  | .ok t =>
    let r := generateReport t
    (some r, if r.status = "PASS" then 0 else 1)
  | .error _ => (none, 1)

/-- Whether a run of the validation pipeline aborted with an uncaught
exception. -/
def exceptFailed : Except String Tally → Bool
  | .ok _ => false
  | .error _ => true

/-! ## `master_validator.py` -/

/-- Everything the environment determines about one sub-validator
invocation in `_run_single_validator` (lines 122-208): the script may be
missing, the subprocess may exceed the 60 s timeout, the invocation may
raise, the expected JSON report may exist (with its string-valued status
fields, its optional `success_rate`, and the subprocess return code), or
no report is found and only the return code is known. -/
inductive RunOutcome where
  | scriptMissing
  | timeoutExpired
  | excRaised (msg : String)
  | reportFound (statusFields : List (String × String)) (rate : Option ℚ)
      (returncode : Int)
  | noReport (returncode : Int)
  deriving Repr

/-- The extract of a sub-validator run that `run_complete_validation`
consumes: `status`, `success_rate`, `score`. -/
structure SubResult where
  status : String
  success_rate : ℚ
  score : ℚ
  deriving Repr, DecidableEq

/-- The status keys probed in order (lines 161-173). -/
def status_keys : List String :=
  ["status", "orchestration_status", "workflow_status", "practical_status"]

/-- Dictionary lookup in the parsed report. -/
def fieldGet (fields : List (String × String)) (k : String) : Option String :=
  (fields.find? (fun e => e.1 == k)).map (fun e => e.2)

/-- `_run_single_validator` (lines 122-208). -/
def runSingleValidator : RunOutcome → SubResult
  | .scriptMissing => ⟨"ERROR", 0, 0⟩
  | .timeoutExpired => ⟨"TIMEOUT", 0, 0⟩
  | .excRaised _ => ⟨"ERROR", 0, 0⟩
  | .reportFound fields rate _ =>
    let status := (status_keys.findSome? (fun k => fieldGet fields k)).getD "UNKNOWN"
    let success_rate := rate.getD 0
    ⟨status, success_rate, success_rate⟩
  | .noReport rc =>
    if rc = 0 then ⟨"COMPLETED", 100, 100⟩ else ⟨"FAIL", 0, 0⟩

/-- One configured sub-validator: display name, weight, and what its
invocation produced. -/
abbrev MasterInput := List (String × Nat × RunOutcome)

/-- The loop of `run_complete_validation` (lines 76-97) threading
`total_score`, `max_score` and `overall_status` over the validators. -/
def masterLoop (vs : MasterInput) : ℚ × ℚ × String :=
  vs.foldl
    (fun acc v =>
      let res := runSingleValidator v.2.2
      (acc.1 + res.score * (v.2.1 : ℚ),
       acc.2.1 + (v.2.1 : ℚ) * 100,
       if res.status = "FAIL" then "FAIL" else acc.2.2))
    (0, 0, "PASS")

/-- `overall_percentage` before rounding (lines 99-103). -/
def masterOverallPercentageRaw (vs : MasterInput) : ℚ :=
  let l := masterLoop vs
  if l.2.1 > 0 then l.1 / l.2.1 * 100 else 0

/-- The consolidated report of `run_complete_validation` (lines 64-120)
restricted to its data fields; recommendation strings and file paths are
omitted.  `timestamp` is `datetime.now().strftime(...)` captured in
`__init__` (line 23) and `summary_validation_date` is
`datetime.now().isoformat()` from `_generate_summary` (line 256); both
are parameters of the embedding because they read the wall clock. -/
structure MasterReport where
  timestamp : String
  overall_status : String
  total_score : ℚ
  max_score : ℚ
  validator_results : List (String × SubResult)
  overall_percentage : ℚ
  summary_validation_date : String
  summary_project_status : String
  validators_passed : Nat
  critical_issues : Nat
  deriving Repr, DecidableEq

/-- `run_complete_validation` as a function of the sub-validator
outcomes and the two wall-clock reads. -/
def masterRun (vs : MasterInput) (timestamp validationDate : String) :
    MasterReport :=
  let l := masterLoop vs
  let results := vs.map (fun v => (v.1, runSingleValidator v.2.2))
  { timestamp := timestamp
    overall_status := l.2.2
    total_score := l.1
    max_score := l.2.1
    validator_results := results
    overall_percentage := pyRound1 (masterOverallPercentageRaw vs)
    summary_validation_date := validationDate
    summary_project_status := l.2.2
    validators_passed := (results.filter (fun r => r.2.status = "PASS")).length
    critical_issues := (results.filter (fun r => r.2.status = "FAIL")).length }

/-- `main` of `master_validator.py` (lines 365-384): exit `0` iff the
overall status is `PASS`. -/
def masterExit (r : MasterReport) : Nat :=
  if r.overall_status = "PASS" then 0 else 1

/-- The report with its wall-clock-derived fields blanked. -/
def stripTimes (r : MasterReport) : MasterReport :=
  { r with timestamp := "", summary_validation_date := "" }

/-- The spec formula for the aggregate: weighted mean of the group
success rates, `Σ(rate × weight) / Σ(weight)` (spec §4.3).  This
definition follows the specification wording, for comparison with
`masterOverallPercentageRaw`. -/
def specWeightedMean (vs : MasterInput) : ℚ :=
  ((vs.map (fun v => (runSingleValidator v.2.2).success_rate * (v.2.1 : ℚ))).sum) /
    ((vs.map (fun v => ((v.2.1 : Nat) : ℚ))).sum)

/-- Total configured weight. -/
def sumWeights (vs : MasterInput) : Nat := (vs.map (fun v => v.2.1)).sum

/-! ## `orchestration_validator.py` and `validate_instructions_fixed.py` -/

/-- One check of `orchestration_validator`: name, pass flag, details. -/
abbrev OrchCheck := String × Bool × String

/-- `total_failed` accumulated over all categories in `run_validation`
(lines 526-539). -/
def orchestrationTotalFailed (categories : List (List OrchCheck)) : Nat :=
  (categories.map (fun checks => (checks.filter (fun c => !c.2.1)).length)).sum

/-- The summary status thresholds of `run_validation` (lines 553-564). -/
def orchestrationStatus (total_failed : Nat) : String :=
  if total_failed = 0 then "perfect"
  else if total_failed ≤ 3 then "good"
  else if total_failed ≤ 6 then "moderate"
  else "poor"

/-- `main` of `orchestration_validator.py` (lines 576-584): exit `0` iff
the summary status is `perfect` or `good`. -/
def orchestrationExit (status : String) : Nat :=
  if ["perfect", "good"].contains status then 0 else 1

/-- `main` of `validate_instructions_fixed.py` (lines 284-307): count
passed and failed checks; return `0` iff none failed. -/
def fixedMainExit (all_checks : List (String × Bool × String)) : Nat :=
  if (all_checks.filter (fun c => !c.2.1)).length = 0 then 0 else 1

/-! ## `copilot_best_practices_validator.py` setting checks -/

/-- Outcome of one critical-setting check in
`_validate_vscode_configuration` (lines 126-146): the key present with
the expected value, present with another value, or absent.  The code
records a strength for `correct` and an issue otherwise, with distinct
messages. -/
inductive SettingOutcome where
  | correct
  | incorrect
  | missing
  deriving Repr, DecidableEq

/-- Structural equality on parsed JSON values, modelling Python `==` on
the scalar setting values the checks compare. -/
def jvalEqScalar : JValue → JValue → Bool
  | .jnull, .jnull => true
  | .jbool a, .jbool b => a == b
  | .jnum a, .jnum b => a == b
  | .jstr a, .jstr b => a == b
  | _, _ => false

/-- The body of the critical-settings loop for one setting: membership
is a flat top-level key lookup (`if setting in settings`), not a nested
path. -/
def checkCriticalSetting (settings : List (String × JValue)) (key : String)
    (expected : JValue) : SettingOutcome :=
  match jGet settings key with
  | some v => if jvalEqScalar v expected then .correct else .incorrect
  | none => .missing

/-- Parse a settings document the way
`copilot_best_practices_validator` does before its setting checks. -/
def bpParseSettings (content : String) : Option (List (String × JValue)) :=
  match jsonParse (bpClean content) with
  | some (.jobj m) => some m
  | _ => none

/-! ## Check-counting view of the role validation (for the
one-finding-per-rule claim)

`_validate_role_files` evaluates one existence check per expected role
and, for each readable role file with a frontmatter block, one
membership check per required field (none when the YAML errors out).
These functions count the checks evaluated and the findings produced on
the same control flow as `validateRoleFiles`. -/

/-- Number of field-membership checks `_validate_role_file_content`
evaluates on a file content. -/
def contentChecksCount (c : String) : Nat :=
  if pyStartsWith c "---" then
    let e := pyFindFrom c "---" 3
    if e > 0 then
      match yamlSafeLoadModel (pySlice c 3 e.toNat) with
      | .ydict _ => 3
      | .yscalar _ => 3
      | _ => 0
    else 0
  else 0

/-- Number of checks (`exists` tests plus field-membership tests)
evaluated by `_validate_role_files`. -/
def roleChecksPerformed (fs : Snapshot) : Nat :=
  if fs.dirExists rolesDirPath then
    expected_roles.foldl
      (fun n name =>
        n + 1 +
          (match fs.file (rolePath name) with
           | some (.readable c) => contentChecksCount c
           | _ => 0))
      0
  else 0

/-- Number of findings `_validate_role_file_content` records on a file
content: one warning per missing required field, one error on a YAML
parse failure, nothing otherwise. -/
def contentFindingCount (c : String) : Nat :=
  if pyStartsWith c "---" then
    let e := pyFindFrom c "---" 3
    if e > 0 then
      match yamlSafeLoadModel (pySlice c 3 e.toNat) with
      | .yerror => 1
      | .ynone => 0
      | m => (required_role_fields.filter (fun f => !yamlMem f m)).length
    else 0
  else 0

/-- Whether the content validation raises (metadata loads as `None`). -/
def contentAborts (c : String) : Bool :=
  if pyStartsWith c "---" then
    let e := pyFindFrom c "---" 3
    if e > 0 then
      match yamlSafeLoadModel (pySlice c 3 e.toNat) with
      | .ynone => true
      | _ => false
    else false
  else false

/-- A role entry that cannot raise during `_validate_role_files`. -/
def roleEntryClean (fs : Snapshot) (name : String) : Bool :=
  match fs.file (rolePath name) with
  | none => true
  | some (.readable c) => !contentAborts c
  | some (.unreadable _) => false

/-- The roles directory exists and no expected role entry raises. -/
def rolesClean (fs : Snapshot) : Bool :=
  fs.dirExists rolesDirPath && expected_roles.all (roleEntryClean fs)

/-- Content findings summed over a list of role names. -/
def contentSumNames : List String → Snapshot → Nat
  | [], _ => 0
  | name :: rest, fs =>
    (match fs.file (rolePath name) with
     | some (.readable c) => contentFindingCount c
     | _ => 0) + contentSumNames rest fs

/-- Total content findings over the expected role files. -/
def contentFindingsTotal (fs : Snapshot) : Nat :=
  contentSumNames expected_roles fs

/-- Number of findings recorded by a (non-raising) run of
`_validate_role_files` from a fresh tally. -/
def roleFindingsCount (fs : Snapshot) : Nat :=
  match validateRoleFiles fs ⟨0, [], []⟩ with
  | .ok t => tallyTotal t
  | .error _ => 0

/-! ## Concrete inputs used by the claims -/

/-- The settings document of spec §8:
a nested object, a block comment, and a trailing comma. -/
def jsonScenario : String :=
  "\x7b\"x\": \x7b\"enabled\": true\x7d /* comment */,\x7d"

/-- The same document with the flat dotted key the setting checks
actually look up. -/
def jsonScenarioFlat : String :=
  "\x7b\"x.enabled\": true /* comment */,\x7d"

/-- Snapshot whose `.vscode/settings.json` is the scenario document. -/
def fsSettingsScenario : Snapshot :=
  ⟨[(".vscode/settings.json", .readable jsonScenario)], []⟩

/-- A role file whose frontmatter carries all three required fields. -/
def goodRoleContent : String :=
  "---\napplyTo: all\ndescription: rol de ciencia de datos\npriority: high\n---\nCuerpo"

/-- Snapshot with the roles directory and one complete role file. -/
def fsRoleComplete : Snapshot :=
  ⟨[(rolePath "data-scientist.md", .readable goodRoleContent)], [rolesDirPath]⟩

/-- Prompt file of spec §8: `---`, `role: "qa"`, `---`. -/
def promptPassContent : String := "---\nrole: \"qa\"\n---"

/-- A file with no leading frontmatter delimiter. -/
def promptNoFm : String := "role: qa"

/-- A frontmatter block whose mapping is malformed (unclosed flow
sequence), making `yaml.safe_load` raise `YAMLError`. -/
def promptBadYaml : String := "---\nrole: [broken\n---"

/-- Snapshot whose only expected role file exists but cannot be read. -/
def fsUnreadableRole : Snapshot :=
  ⟨[(rolePath "data-scientist.md",
     .unreadable "PermissionError: Errno 13 Permission denied")],
   [rolesDirPath]⟩

/-- Snapshot whose only expected role file has malformed YAML
frontmatter (caught per-file). -/
def fsBadYamlRole : Snapshot :=
  ⟨[(rolePath "data-scientist.md", .readable promptBadYaml)], [rolesDirPath]⟩

/-- Two sub-validator groups: weights `3` and `1`, success rates `100`
and `0`, the second failing (spec §8 aggregator scenario). -/
def masterScenario : MasterInput :=
  [("Estructura Basica", 3, .reportFound [("status", "PASS")] (some 100) 0),
   ("Validacion Practica", 1, .reportFound [("status", "FAIL")] (some 0) 1)]

/-- Three sub-validators: two passing, one whose script is missing. -/
def masterWithError : MasterInput :=
  [("Estructura Basica", 3, .reportFound [("status", "PASS")] (some 100) 0),
   ("Orquestacion Completa", 4, .scriptMissing),
   ("Workflows de Trabajo", 3, .reportFound [("status", "PASS")] (some 100) 0)]

/-! ## Helper lemmas -/

theorem tallyTotal_addSuccess (t : Tally) :
    tallyTotal t.addSuccess = tallyTotal t + 1 := by
  simp [tallyTotal, Tally.addSuccess]; omega

theorem tallyTotal_addError (t : Tally) (m : String) :
    tallyTotal (t.addError m) = tallyTotal t + 1 := by
  simp [tallyTotal, Tally.addError]; omega

theorem tallyTotal_addWarning (t : Tally) (m : String) :
    tallyTotal (t.addWarning m) = tallyTotal t + 1 := by
  simp [tallyTotal, Tally.addWarning]; omega

theorem foldWarn_count (p : String → Bool) (msgf : String → String) :
    ∀ (fields : List String) (t : Tally),
      (fields.foldl (fun t f => if p f then t else t.addWarning (msgf f)) t).success_count
          = t.success_count ∧
      tallyTotal (fields.foldl (fun t f => if p f then t else t.addWarning (msgf f)) t)
          = tallyTotal t + (fields.filter (fun f => !p f)).length := by
  intro fields
  induction fields with
  | nil => intro t; simp
  | cons f rest ih =>
    intro t
    cases hp : p f with
    | true =>
      have h2 := ih t
      simp [List.foldl_cons, List.filter_cons, hp, h2.1, h2.2]
    | false =>
      have h2 := ih (t.addWarning (msgf f))
      have hsc : (t.addWarning (msgf f)).success_count = t.success_count := rfl
      refine ⟨?_, ?_⟩
      · simp only [List.foldl_cons]
        rw [if_neg (by simp [hp])]
        rw [h2.1, hsc]
      · simp only [List.foldl_cons, List.filter_cons]
        rw [if_neg (by simp [hp])]
        rw [h2.2, tallyTotal_addWarning]
        simp [hp]
        omega

/-! ## C1 -/

/-- C1: in each of the three report builders the overall status is
`FAIL` exactly when at least one error-severity finding was recorded,
and the warnings list never influences the status. -/
theorem report_status_fail_iff_errors (t : Tally) :
    ((generateReport t).status = "FAIL" ↔ t.errors ≠ []) ∧
    ((generateWorkflowReport t).workflow_status = "FAIL" ↔ t.errors ≠ []) ∧
    ((generatePracticalReport t).practical_status = "FAIL" ↔ t.errors ≠ []) ∧
    (∀ w1 w2 : List String,
      (generateReport { t with warnings := w1 }).status =
        (generateReport { t with warnings := w2 }).status ∧
      (generateWorkflowReport { t with warnings := w1 }).workflow_status =
        (generateWorkflowReport { t with warnings := w2 }).workflow_status ∧
      (generatePracticalReport { t with warnings := w1 }).practical_status =
        (generatePracticalReport { t with warnings := w2 }).practical_status) := by
  have hne : ("PASS" : String) ≠ "FAIL" := by decide
  refine ⟨?_, ?_, ?_, ?_⟩
  · cases h : t.errors <;>
      simp [generateReport, h, hne]
  · cases h : t.errors <;>
      simp [generateWorkflowReport, h, hne]
  · cases h : t.errors <;>
      simp [generatePracticalReport, h, hne]
  · intro w1 w2
    exact ⟨rfl, rfl, rfl⟩

/-! ## C2 -/

/-- C2 counterexample: in `orchestration_validator.py` a run with
exactly one failed check gets summary status `good`, and `main` returns
exit code `0` — a failed check with exit code zero, contradicting the
claim that any failed check implies a non-zero exit code. -/
theorem orchestration_exit_zero_with_one_failed_check :
    orchestrationTotalFailed [[("Directory: .github", false, "missing")]] = 1 ∧
    orchestrationStatus 1 = "good" ∧
    orchestrationExit (orchestrationStatus 1) = 0 :=
  ⟨rfl, rfl, rfl⟩

/-- C2 amended: `comprehensive_validator` exits `0` exactly when its run
completed with an empty error list; `validate_instructions_fixed` exits
`0` exactly when no check failed; but `orchestration_validator` exits
`0` exactly when at most three checks failed, so up to three failed
checks still produce exit code `0` there. -/
theorem validator_exit_codes_amended :
    (∀ fs : Snapshot,
      (comprehensiveMain fs).2 = 0 ↔
        (match (comprehensiveMain fs).1 with
         | some r => r.errors = 0
         | none => False)) ∧
    (∀ categories : List (List OrchCheck),
      orchestrationExit (orchestrationStatus (orchestrationTotalFailed categories)) = 0 ↔
        orchestrationTotalFailed categories ≤ 3) ∧
    (∀ checks : List (String × Bool × String),
      fixedMainExit checks = 0 ↔ (checks.filter (fun c => !c.2.1)).length = 0) := by
  refine ⟨?_, ?_, ?_⟩
  · intro fs
    unfold comprehensiveMain
    cases h : validateAll fs with
    | error e => simp
    | ok t =>
      by_cases he : t.errors.length = 0 <;>
        simp [generateReport, he]
  · intro categories
    generalize orchestrationTotalFailed categories = n
    unfold orchestrationStatus orchestrationExit
    split_ifs <;> simp_all
  · intro checks
    unfold fixedMainExit
    split_ifs with h <;> simp [h]

/-! ## C5 -/

/-- C5 counterexample: `comprehensive_validator` strips only `//` line
comments before `json.loads`, so the spec scenario document (block
comment and trailing comma) is returned unchanged by its cleaner, fails
to parse, and the settings check records a JSON-format error finding
instead of passing. -/
theorem comprehensive_settings_scenario_parse_fails :
    comprehensiveClean jsonScenario = jsonScenario ∧
    jsonParse (comprehensiveClean jsonScenario) = none ∧
    validateVscodeSettings fsSettingsScenario ⟨0, [], []⟩ =
      .ok ⟨0, ["Error en formato JSON de settings.json"], []⟩ :=
  ⟨rfl, rfl, rfl⟩

/-- C5 amended: only `copilot_best_practices_validator` strips block
comments and trailing commas; under its cleaner the scenario document
parses, but setting lookup is by flat top-level key, so the nested
`x.enabled` is reported missing; the flat document
`(left brace)"x.enabled": true /* comment */,(right brace)` parses and
the check passes. -/
theorem bp_settings_lenient_parse_amended :
    bpParseSettings jsonScenario =
      some [("x", .jobj [("enabled", .jbool true)])] ∧
    checkCriticalSetting [("x", .jobj [("enabled", .jbool true)])]
      "x.enabled" (.jbool true) = .missing ∧
    bpParseSettings jsonScenarioFlat = some [("x.enabled", .jbool true)] ∧
    checkCriticalSetting [("x.enabled", .jbool true)]
      "x.enabled" (.jbool true) = .correct :=
  ⟨rfl, rfl, rfl, rfl⟩

/-! ## C6 -/

/-- C6 counterexample: a file with no leading frontmatter delimiter
produces no finding at all — neither validator records any message, so
there is no distinct `no frontmatter block` Fail. -/
theorem prompt_no_frontmatter_silent :
    validatePromptFileContent promptNoFm "f.prompt.md" ⟨0, [], []⟩ =
      .ok ⟨0, [], []⟩ ∧
    validateRoleFileContent promptNoFm "r.md" ⟨0, [], []⟩ = .ok ⟨0, [], []⟩ :=
  ⟨rfl, rfl⟩

/-- C6 amended: the `---`/`role: "qa"`/`---` file counts one success for
the `role` field (with warnings for the other recommended fields); a
file that does not start with `---` is silently skipped with no finding;
malformed YAML frontmatter yields its own distinct error message, and a
missing field its own distinct warning message. -/
theorem frontmatter_field_amended :
    validatePromptFileContent promptPassContent "f.prompt.md" ⟨0, [], []⟩ =
      .ok ⟨1, [],
        ["Campo recomendado title faltante en f.prompt.md",
         "Campo recomendado description faltante en f.prompt.md",
         "Campo recomendado mode faltante en f.prompt.md",
         "Campo recomendado tools faltante en f.prompt.md"]⟩ ∧
    (∀ (content name : String) (t : Tally),
      pyStartsWith content "---" = false →
      validatePromptFileContent content name t = .ok t) ∧
    validatePromptFileContent promptBadYaml "f.prompt.md" ⟨0, [], []⟩ =
      .ok ⟨0, ["Error en YAML frontmatter de f.prompt.md"], []⟩ := by
  refine ⟨rfl, ?_, rfl⟩
  intro content name t h
  simp [validatePromptFileContent, h]

/-- C6 witness: the amended no-frontmatter clause applied to a concrete
file. -/
theorem frontmatter_field_amended_witness :
    (pyStartsWith "role: qa" "---") = false ∧
    validatePromptFileContent "role: qa" "g.prompt.md" ⟨0, [], []⟩ =
      .ok ⟨0, [], []⟩ :=
  ⟨by decide,
   frontmatter_field_amended.2.1 "role: qa" "g.prompt.md" ⟨0, [], []⟩ (by decide)⟩

/-! ## C7 -/

/-- C7 counterexample: a role file that exists but cannot be read makes
`read_text` raise inside `_validate_role_file_content`; nothing catches
it below `main`, so the run aborts with exit code `1` and no report —
the exception is not converted into a Fail finding and the remaining
rules are never evaluated. -/
theorem unreadable_role_aborts_run :
    comprehensiveMain fsUnreadableRole = (none, 1) :=
  rfl

/-- C7 amended: an uncaught exception anywhere in `validate_all`
propagates to `main`, which exits `1` without producing a report; the
only per-rule handler is the `yaml.YAMLError` catch, which does convert
a malformed frontmatter into an error finding without aborting. -/
theorem exception_aborts_main_amended :
    (∀ fs : Snapshot,
      ((comprehensiveMain fs).1 = none ∧ (comprehensiveMain fs).2 = 1) ↔
        exceptFailed (validateAll fs) = true) ∧
    validateRoleFileContent promptBadYaml "data-scientist.md" ⟨0, [], []⟩ =
      .ok ⟨0, ["Error en YAML frontmatter de data-scientist.md"], []⟩ ∧
    ((comprehensiveMain fsBadYamlRole).1).isSome = true := by
  refine ⟨?_, rfl, rfl⟩
  intro fs
  unfold comprehensiveMain exceptFailed
  cases h : validateAll fs with
  | ok t => simp
  | error e => simp

/-! ## C8 -/

/-- C8 counterexample: two consecutive master runs over the same
sub-validator outcomes read different wall-clock values, and the
`timestamp` field of the two reports differs — the reports are not
identical in every field. -/
theorem master_reports_differ_in_timestamp :
    (masterRun masterScenario "20250101_120000" "2025-01-01T12:00:00").timestamp ≠
      (masterRun masterScenario "20250101_120001" "2025-01-01T12:00:01").timestamp := by
  decide

/-- C8 amended: apart from the wall-clock-derived fields (`timestamp`
and the summary validation date), two runs over the same sub-validator
outcomes produce reports that agree on every field: the computation is a
pure function of the outcomes. -/
theorem master_run_time_independent (vs : MasterInput)
    (t1 d1 t2 d2 : String) :
    stripTimes (masterRun vs t1 d1) = stripTimes (masterRun vs t2 d2) :=
  rfl

/-! ## C9 -/

/-- C9: converting one Fail finding (an error or a warning) into a
success, holding everything else constant, never decreases the computed
success rate. -/
theorem success_rate_monotone (s e w : Nat) :
    (0 < e → successRateRaw s e w ≤ successRateRaw (s + 1) (e - 1) w) ∧
    (0 < w → successRateRaw s e w ≤ successRateRaw (s + 1) e (w - 1)) := by
  constructor
  · intro he
    unfold successRateRaw
    have hT : s + 1 + (e - 1) + w = s + e + w := by omega
    have hTpos : 0 < s + e + w := by omega
    rw [hT]
    simp only [hTpos, if_pos]
    have hc : (0 : ℚ) < ((s + e + w : Nat) : ℚ) := by exact_mod_cast hTpos
    have hs : ((s : Nat) : ℚ) ≤ ((s + 1 : Nat) : ℚ) := by
      exact_mod_cast Nat.le_succ s
    gcongr
  · intro hw
    unfold successRateRaw
    have hT : s + 1 + e + (w - 1) = s + e + w := by omega
    have hTpos : 0 < s + e + w := by omega
    rw [hT]
    simp only [hTpos, if_pos]
    have hc : (0 : ℚ) < ((s + e + w : Nat) : ℚ) := by exact_mod_cast hTpos
    have hs : ((s : Nat) : ℚ) ≤ ((s + 1 : Nat) : ℚ) := by
      exact_mod_cast Nat.le_succ s
    gcongr

/-- C9 witness: one error fixed and one warning fixed, at `1/1/1`. -/
theorem success_rate_monotone_witness :
    successRateRaw 1 1 1 ≤ successRateRaw 2 0 1 ∧
    successRateRaw 1 1 1 ≤ successRateRaw 2 1 0 :=
  ⟨(success_rate_monotone 1 1 1).1 (by decide),
   (success_rate_monotone 1 1 1).2 (by decide)⟩

/-! ## C10 -/

/-- C10: a missing script, a 60-second timeout, or a raised exception is
recorded with status `ERROR` or `TIMEOUT` and score `0`; since only a
sub-validator status of exactly `FAIL` flips the aggregate status, a run
with a sub-validator that never executed still reports `PASS` and exits
with code `0`. -/
theorem master_error_outcomes_do_not_fail :
    runSingleValidator .scriptMissing = ⟨"ERROR", 0, 0⟩ ∧
    runSingleValidator .timeoutExpired = ⟨"TIMEOUT", 0, 0⟩ ∧
    (∀ m : String, runSingleValidator (.excRaised m) = ⟨"ERROR", 0, 0⟩) ∧
    (masterRun masterWithError "20250101_120000" "2025-01-01T12:00:00").overall_status
        = "PASS" ∧
    masterExit (masterRun masterWithError "20250101_120000" "2025-01-01T12:00:00") = 0 :=
  ⟨rfl, rfl, fun _ => rfl, rfl, rfl⟩

/-! ## C3 -/

theorem runSingle_score_eq_rate (oc : RunOutcome) :
    (runSingleValidator oc).score = (runSingleValidator oc).success_rate := by
  cases oc with
  | scriptMissing => rfl
  | timeoutExpired => rfl
  | excRaised m => rfl
  | reportFound fields rate rc => rfl
  | noReport rc => by_cases h : rc = 0 <;> simp [runSingleValidator, h]

theorem masterLoop_general (vs : MasterInput) :
    ∀ (a b : ℚ) (s : String),
      vs.foldl
        (fun acc v =>
          let res := runSingleValidator v.2.2
          (acc.1 + res.score * (v.2.1 : ℚ),
           acc.2.1 + (v.2.1 : ℚ) * 100,
           if res.status = "FAIL" then "FAIL" else acc.2.2)) (a, b, s)
      = (a + (vs.map (fun v => (runSingleValidator v.2.2).score * (v.2.1 : ℚ))).sum,
         b + 100 * (vs.map (fun v => ((v.2.1 : Nat) : ℚ))).sum,
         vs.foldl
           (fun st v =>
             if (runSingleValidator v.2.2).status = "FAIL" then "FAIL" else st) s) := by
  induction vs with
  | nil => intro a b s; simp
  | cons v rest ih =>
    intro a b s
    simp only [List.foldl_cons, List.map_cons, List.sum_cons]
    rw [ih]
    simp only [Prod.mk.injEq]
    refine ⟨by ring, by ring, by trivial⟩

theorem masterLoop_eq (vs : MasterInput) :
    masterLoop vs =
      ((vs.map (fun v => (runSingleValidator v.2.2).score * (v.2.1 : ℚ))).sum,
       100 * (vs.map (fun v => ((v.2.1 : Nat) : ℚ))).sum,
       vs.foldl
         (fun st v =>
           if (runSingleValidator v.2.2).status = "FAIL" then "FAIL" else st)
         "PASS") := by
  unfold masterLoop
  rw [masterLoop_general vs 0 0 "PASS"]
  simp

theorem cast_sum_weights (vs : MasterInput) :
    (vs.map (fun v => ((v.2.1 : Nat) : ℚ))).sum = ((sumWeights vs : Nat) : ℚ) := by
  unfold sumWeights
  induction vs with
  | nil => simp
  | cons v rest ih =>
    simp only [List.map_cons, List.sum_cons, ih]
    push_cast
    ring

/-- C3: the aggregate percentage computed by `run_complete_validation`
is the weighted mean of the group success rates whenever the total
weight is positive; with weights `3` and `1` and rates `100` and `0` it
is `75`, and the failing `0`-rate group flips the aggregate status to
`FAIL`.  (The stored report field additionally rounds the percentage to
one decimal, which fixes `75`.) -/
theorem master_weighted_percentage :
    (∀ vs : MasterInput, 0 < sumWeights vs →
      masterOverallPercentageRaw vs = specWeightedMean vs) ∧
    masterOverallPercentageRaw masterScenario = 75 ∧
    (masterRun masterScenario "20250101_120000" "2025-01-01T12:00:00").overall_percentage
        = 75 ∧
    (masterRun masterScenario "20250101_120000" "2025-01-01T12:00:00").overall_status
        = "FAIL" := by
  have hgen : ∀ vs : MasterInput, 0 < sumWeights vs →
      masterOverallPercentageRaw vs = specWeightedMean vs := by
    intro vs h
    have hW : (0 : ℚ) < ((sumWeights vs : Nat) : ℚ) := by exact_mod_cast h
    have hpos : (0 : ℚ) < 100 * ((sumWeights vs : Nat) : ℚ) :=
      mul_pos (by norm_num) hW
    have hTT : (vs.map (fun v => (runSingleValidator v.2.2).score * (v.2.1 : ℚ))).sum
        = (vs.map (fun v => (runSingleValidator v.2.2).success_rate * (v.2.1 : ℚ))).sum := by
      congr 1
      exact List.map_congr_left (fun a _ => by rw [runSingle_score_eq_rate])
    unfold masterOverallPercentageRaw specWeightedMean
    rw [masterLoop_eq, cast_sum_weights]
    simp only [gt_iff_lt, hpos, if_pos]
    rw [hTT]
    field_simp
    ring
  have hsub1 : runSingleValidator (.reportFound [("status", "PASS")] (some 100) 0)
      = ⟨"PASS", 100, 100⟩ := rfl
  have hsub2 : runSingleValidator (.reportFound [("status", "FAIL")] (some 0) 1)
      = ⟨"FAIL", 0, 0⟩ := rfl
  have hl : masterLoop masterScenario = (300, 400, "FAIL") := by
    rw [masterLoop_eq]
    simp only [masterScenario, List.map_cons, List.map_nil, List.sum_cons,
      List.sum_nil, List.foldl_cons, List.foldl_nil, hsub1, hsub2]
    norm_num
  have hraw : masterOverallPercentageRaw masterScenario = 75 := by
    unfold masterOverallPercentageRaw
    rw [hl]
    norm_num
  refine ⟨hgen, hraw, ?_, ?_⟩
  · show pyRound1 (masterOverallPercentageRaw masterScenario) = 75
    rw [hraw]
    unfold pyRound1
    norm_num
  · show (masterLoop masterScenario).2.2 = "FAIL"
    rw [hl]

/-- C3 witness: the general clause applied to the two-group scenario. -/
theorem master_weighted_percentage_witness :
    0 < sumWeights masterScenario ∧
    masterOverallPercentageRaw masterScenario = specWeightedMean masterScenario :=
  ⟨by decide, master_weighted_percentage.1 masterScenario (by decide)⟩

/-! ## C4 -/

/-- C4 counterexample: with the roles directory present and one role
file whose frontmatter carries all three required fields, the run
evaluates 12 checks (9 existence tests plus 3 field-membership tests)
but records only 9 findings — the three passing field checks contribute
to no tally, so the number of findings differs from the number of
rules. -/
theorem role_findings_ne_checks :
    roleFindingsCount fsRoleComplete = 9 ∧
    roleChecksPerformed fsRoleComplete = 12 ∧
    roleFindingsCount fsRoleComplete ≠ roleChecksPerformed fsRoleComplete :=
  ⟨rfl, rfl, by decide⟩

theorem validateRoleFileContent_count (c name : String) (t : Tally)
    (h : contentAborts c = false) :
    ∃ t2, validateRoleFileContent c name t = .ok t2 ∧
      t2.success_count = t.success_count ∧
      tallyTotal t2 = tallyTotal t + contentFindingCount c := by
  by_cases hs : pyStartsWith c "---" = true
  · by_cases he : pyFindFrom c "---" 3 > 0
    · cases hy : yamlSafeLoadModel (pySlice c 3 (pyFindFrom c "---" 3).toNat) with
      | yerror =>
        refine ⟨t.addError ("Error en YAML frontmatter de " ++ name), ?_, rfl, ?_⟩
        · simp [validateRoleFileContent, hs, he, hy]
        · rw [tallyTotal_addError]
          have hcc : contentFindingCount c = 1 := by
            simp [contentFindingCount, hs, he, hy]
          rw [hcc]
      | ynone =>
        exfalso
        have hca : contentAborts c = true := by
          simp [contentAborts, hs, he, hy]
        rw [hca] at h
        exact Bool.noConfusion h
      | ydict m =>
        have hf := foldWarn_count (fun f => yamlMem f (.ydict m))
          (fun f => "Campo " ++ f ++ " faltante en metadata de " ++ name)
          required_role_fields t
        have hcc : contentFindingCount c
            = (required_role_fields.filter (fun f => !yamlMem f (.ydict m))).length := by
          simp [contentFindingCount, hs, he, hy]
        refine ⟨_, ?_, hf.1, by rw [hcc]; exact hf.2⟩
        simp [validateRoleFileContent, hs, he, hy]
      | yscalar s =>
        have hf := foldWarn_count (fun f => yamlMem f (.yscalar s))
          (fun f => "Campo " ++ f ++ " faltante en metadata de " ++ name)
          required_role_fields t
        have hcc : contentFindingCount c
            = (required_role_fields.filter (fun f => !yamlMem f (.yscalar s))).length := by
          simp [contentFindingCount, hs, he, hy]
        refine ⟨_, ?_, hf.1, by rw [hcc]; exact hf.2⟩
        simp [validateRoleFileContent, hs, he, hy]
    · have hcc : contentFindingCount c = 0 := by
        simp [contentFindingCount, hs, he]
      refine ⟨t, ?_, rfl, by rw [hcc]; omega⟩
      simp [validateRoleFileContent, hs, he]
  · have hcc : contentFindingCount c = 0 := by
      simp [contentFindingCount, hs]
    refine ⟨t, ?_, rfl, by rw [hcc]; omega⟩
    simp [validateRoleFileContent, hs]

theorem validateRoleList_count (fs : Snapshot) :
    ∀ (names : List String) (t : Tally),
      (∀ n ∈ names, roleEntryClean fs n = true) →
      ∃ t2, validateRoleList fs names t = .ok t2 ∧
        tallyTotal t2 = tallyTotal t + names.length + contentSumNames names fs := by
  intro names
  induction names with
  | nil => intro t _; exact ⟨t, rfl, by simp [contentSumNames]⟩
  | cons name rest ih =>
    intro t hclean
    have hn := hclean name (by simp)
    have hrest : ∀ n ∈ rest, roleEntryClean fs n = true := by
      intro n hmem; exact hclean n (by simp [hmem])
    unfold roleEntryClean at hn
    cases hf : fs.file (rolePath name) with
    | none =>
      have hsum : contentSumNames (name :: rest) fs = 0 + contentSumNames rest fs := by
        simp only [contentSumNames]
        rw [hf]
      obtain ⟨t2, heq, hcount⟩ :=
        ih (t.addWarning ("Archivo de rol faltante: " ++ name)) hrest
      have haw := tallyTotal_addWarning t ("Archivo de rol faltante: " ++ name)
      refine ⟨t2, ?_, ?_⟩
      · simp only [validateRoleList]
        rw [hf]
        exact heq
      · rw [hsum, List.length_cons]
        omega
    | some entry =>
      cases entry with
      | unreadable m =>
        rw [hf] at hn
        have hn2 : false = true := hn
        exact absurd hn2 (by decide)
      | readable c =>
        rw [hf] at hn
        have hn2 : (!contentAborts c) = true := hn
        have hab : contentAborts c = false := by simpa using hn2
        obtain ⟨t2, heq2, hsc2, hct2⟩ := validateRoleFileContent_count c name t hab
        have hsum : contentSumNames (name :: rest) fs
            = contentFindingCount c + contentSumNames rest fs := by
          simp only [contentSumNames]
          rw [hf]
        obtain ⟨t3, heq3, hcount3⟩ := ih t2.addSuccess hrest
        have has := tallyTotal_addSuccess t2
        refine ⟨t3, ?_, ?_⟩
        · simp only [validateRoleList]
          rw [hf]
          show (validateRoleFileContent c name t).bind
              (fun t2 => validateRoleList fs rest t2.addSuccess) = Except.ok t3
          rw [heq2]
          exact heq3
        · rw [hsum, List.length_cons]
          omega

/-- C4 amended: each of the nine role-existence checks yields exactly
one finding (a success or a missing-file warning); a field-membership
check yields a warning only when the field is absent and nothing when it
is present, and a YAML failure yields one error; hence, on any snapshot
whose role entries do not raise, the findings number `9` plus the
content findings — not one per evaluated check. -/
theorem role_findings_decomposition (fs : Snapshot)
    (h : rolesClean fs = true) :
    roleFindingsCount fs = 9 + contentFindingsTotal fs := by
  unfold rolesClean at h
  rw [Bool.and_eq_true] at h
  obtain ⟨hd, hall⟩ := h
  rw [List.all_eq_true] at hall
  unfold roleFindingsCount validateRoleFiles
  rw [if_pos hd]
  obtain ⟨t2, heq, hcount⟩ :=
    validateRoleList_count fs expected_roles ⟨0, [], []⟩ hall
  rw [heq]
  show tallyTotal t2 = 9 + contentFindingsTotal fs
  unfold contentFindingsTotal
  rw [hcount]
  rfl

/-- C4 witness: the decomposition applied to the complete-role
snapshot, whose content findings are zero. -/
theorem role_findings_decomposition_witness :
    rolesClean fsRoleComplete = true ∧
    roleFindingsCount fsRoleComplete = 9 + contentFindingsTotal fsRoleComplete :=
  ⟨by decide, role_findings_decomposition fsRoleComplete (by decide)⟩

end Copilot
